import Mathlib

/-!
Verification development for the netctrl-server agent core.

The Go sources are shallowly embedded:
* the agent/cluster records follow the `v1` protobuf message fields as used by
  `internal/service/agent.go` and the SQL schema (timestamps become `Int`
  nanoseconds since epoch; protobuf pointer timestamps become `Option Int`;
  protobuf open enums become `Int` constants);
* the in-memory persistence backend (`internal/storage/memory`) becomes a
  `Store` structure whose maps are association lists keyed by `id`;
* each gRPC handler becomes a function `Store → request → Store × Except GrpcError response`,
  errors carrying the gRPC code and message string built exactly as the Go code does;
* `json.Unmarshal` of the piggy-backed `result_data` string is abstracted into a
  `ResultData` value carrying the parse outcome.
-/

/-- gRPC status codes used by the agent service. -/
inductive GrpcCode where
  | invalidArgument
  | notFound
  | internal
deriving DecidableEq, Repr

/-- A gRPC error as produced by `status.Error(code, msg)`. -/
structure GrpcError where
  code : GrpcCode
  message : String
deriving DecidableEq, Repr

/-- Protobuf open enum `AgentStatus`: `AGENT_STATUS_UNSPECIFIED`. -/
def AGENT_STATUS_UNSPECIFIED : Int := 0

/-- Protobuf open enum `AgentStatus`: `AGENT_STATUS_ACTIVE`. -/
def AGENT_STATUS_ACTIVE : Int := 1

/-- Protobuf open enum `AgentStatus`: `AGENT_STATUS_INACTIVE`. -/
def AGENT_STATUS_INACTIVE : Int := 2

/-- Protobuf open enum `InstructionType`: `INSTRUCTION_TYPE_UNSPECIFIED`. -/
def INSTRUCTION_TYPE_UNSPECIFIED : Int := 0

/-- Protobuf open enum `InstructionType`: `INSTRUCTION_TYPE_COLLECT_HARDWARE`. -/
def INSTRUCTION_TYPE_COLLECT_HARDWARE : Int := 1

/-- Protobuf open enum `InstructionType`: `INSTRUCTION_TYPE_HEALTH_CHECK`. -/
def INSTRUCTION_TYPE_HEALTH_CHECK : Int := 2

/-- Modelled from the spec: the generated protobuf type `v1.MellanoxNIC` is not
under `src/`; the spec describes `network_interfaces` as an ordered list of
structured NIC descriptors, replaced wholesale. Only the identity of a
descriptor matters to the core, so we carry the `device_name` key visible in
the repository's JSONB examples. -/
structure MellanoxNIC where
  deviceName : String
deriving DecidableEq, Repr

/-- The `v1.Agent` record, fields as read and written by the agent service and
as stored in the `agents` table. Timestamps are `Option Int` because the
protobuf fields are nullable pointers. -/
structure Agent where
  id : String
  clusterId : String
  hostname : String
  ipAddress : String
  version : String
  status : Int
  lastSeen : Option Int
  createdAt : Option Int
  updatedAt : Option Int
  hardwareCollected : Bool
  networkInterfaces : List MellanoxNIC
deriving DecidableEq, Repr

/-- The `v1.Cluster` record (only `id` is consulted by the agent core, via
`ClusterExists`). -/
structure Cluster where
  id : String
  name : String
  description : String
  createdAt : Option Int
  updatedAt : Option Int
deriving DecidableEq, Repr

/-- The in-memory persistence backend (`internal/storage/memory`): two maps
keyed by `id`, embedded as association lists. The Go maps hold at most one
entry per key; `Store.WF` states that invariant for the agents list. -/
structure Store where
  clusters : List Cluster
  agents : List Agent
deriving DecidableEq, Repr

/-- Well-formedness of a store: agent ids are pairwise distinct, as guaranteed
by the Go `map[string]*v1.Agent` representation. -/
def Store.WF (s : Store) : Prop :=
  (s.agents.map Agent.id).Nodup

instance (s : Store) : Decidable s.WF := by
  unfold Store.WF
  infer_instance

/-- `memory.Storage.ClusterExists`: key membership in the clusters map. -/
def Store.clusterExists (s : Store) (id : String) : Bool :=
  s.clusters.any (fun c => c.id == id)

/-- `memory.Storage.GetAgent`: lookup by id, `none` for "agent not found". -/
def Store.getAgent (s : Store) (id : String) : Option Agent :=
  s.agents.find? (fun a => a.id == id)

/-- `memory.Storage.CreateAgent`: requires a non-empty id and a fresh key,
then inserts the record. -/
def Store.createAgent (s : Store) (agent : Agent) : Except String Store :=
  if agent.id = "" then
    .error "agent ID is required"
  else if s.agents.any (fun a => a.id == agent.id) then
    .error ("agent with ID " ++ agent.id ++ " already exists")
  else
    .ok { s with agents := s.agents ++ [agent] }

/-- `memory.Storage.UpdateAgent`: fails when the key is absent, otherwise
replaces the entry with that id. -/
def Store.updateAgent (s : Store) (agent : Agent) : Except String Store :=
  if s.agents.any (fun a => a.id == agent.id) then
    .ok { s with agents := s.agents.map (fun a => if a.id == agent.id then agent else a) }
  else
    .error ("agent not found: " ++ agent.id)

/-- `memory.Storage.DeleteAgent`: fails when the key is absent, otherwise
removes the entry. -/
def Store.deleteAgent (s : Store) (id : String) : Except String Store :=
  if s.agents.any (fun a => a.id == id) then
    .ok { s with agents := s.agents.filter (fun a => !(a.id == id)) }
  else
    .error ("agent not found: " ++ id)

/-- `memory.Storage.ListAgents`: all agents, optionally filtered by cluster id
(empty filter returns every agent). -/
def Store.listAgents (s : Store) (clusterID : String) : List Agent :=
  s.agents.filter (fun a => clusterID == "" || a.clusterId == clusterID)

/-- Monitor constant `PollIntervalSeconds` (`agent_monitor.go`). -/
def PollIntervalSeconds : Int := 60

/-- Monitor constant `InactiveThresholdMultiplier` (`agent_monitor.go`). -/
def InactiveThresholdMultiplier : Int := 3

/-- One second in nanoseconds (`time.Second`). -/
def timeSecond : Int := 1000000000

/-- `inactiveThreshold` as computed in `checkAgentStates`:
three poll intervals, in nanoseconds. -/
def inactiveThreshold : Int := PollIntervalSeconds * InactiveThresholdMultiplier * timeSecond

/-- Loop body of `checkAgentStates` for one listed agent: skip agents with a
null `last_seen`; demote an ACTIVE agent whose `last_seen` is older than the
threshold, persisting via `UpdateAgent`; a failed persist is only logged, so
the store is left as it was. -/
def checkAgentStep (now : Int) (s : Store) (agent : Agent) : Store :=
  match agent.lastSeen with
  | none => s
  | some lastSeenTime =>
    if now - lastSeenTime > inactiveThreshold ∧ agent.status = AGENT_STATUS_ACTIVE then
      match s.updateAgent { agent with status := AGENT_STATUS_INACTIVE } with
      | .ok s2 => s2
      | .error _ => s
    else
      s

/-- `AgentMonitor.checkAgentStates`: list all agents, then run the demotion
step over the listed snapshot. -/
def checkAgentStates (s : Store) (now : Int) : Store :=
  (s.listAgents "").foldl (checkAgentStep now) s

/-- Pointwise effect of one sweep on one agent record: the status an agent in
the store ends up with after `checkAgentStates` (proved below). -/
def markInactive (now : Int) (a : Agent) : Agent :=
  match a.lastSeen with
  | none => a
  | some lastSeenTime =>
    if now - lastSeenTime > inactiveThreshold ∧ a.status = AGENT_STATUS_ACTIVE then
      { a with status := AGENT_STATUS_INACTIVE }
    else
      a

/-- `v1.RegisterAgentRequest`. -/
structure RegisterAgentRequest where
  id : String
  clusterId : String
  hostname : String
  ipAddress : String
  version : String
deriving DecidableEq, Repr

/-- `v1.GetAgentRequest`. -/
structure GetAgentRequest where
  id : String
deriving DecidableEq, Repr

/-- `v1.UnregisterAgentRequest`. -/
structure UnregisterAgentRequest where
  id : String
deriving DecidableEq, Repr

/-- `v1.UnregisterAgentResponse`. -/
structure UnregisterAgentResponse where
  success : Bool
deriving DecidableEq, Repr

/-- `v1.Instruction` as built by `generateInstructions`. -/
structure Instruction where
  id : String
  type : Int
  payload : String
  createdAt : Int
deriving DecidableEq, Repr

/-- `v1.GetInstructionsResponse`. -/
structure GetInstructionsResponse where
  instructions : List Instruction
  pollIntervalSeconds : Int
  serverTime : Int
deriving DecidableEq, Repr

/-- `v1.HardwareCollectionResult`: the NIC list carried by a hardware
collection result. -/
structure HardwareCollectionResult where
  networkInterfaces : List MellanoxNIC
deriving DecidableEq, Repr

/-- `v1.HealthCheckResult`. -/
structure HealthCheckResult where
  healthy : Bool
deriving DecidableEq, Repr

/-- The protobuf oneof `result` of `v1.InstructionResult`: unset, a hardware
collection payload, or a health check payload. -/
inductive ResultOneof where
  | unset
  | hardwareCollection (r : HardwareCollectionResult)
  | healthCheck (r : HealthCheckResult)
deriving DecidableEq, Repr

/-- `v1.InstructionResult`: instruction type tag plus the oneof payload. -/
structure InstructionResult where
  instructionType : Int
  result : ResultOneof
deriving DecidableEq, Repr

/-- Generated accessor `InstructionResult.GetHardwareCollection`: the hardware
payload when that oneof variant is set, otherwise nil. -/
def getHardwareCollection (r : InstructionResult) : Option HardwareCollectionResult :=
  match r.result with
  | .hardwareCollection h => some h
  | _ => none

/-- Generated accessor `InstructionResult.GetHealthCheck`. -/
def getHealthCheck (r : InstructionResult) : Option HealthCheckResult :=
  match r.result with
  | .healthCheck h => some h
  | _ => none

/-- `v1.SubmitInstructionResultRequest` (the `result` message pointer is
`Option`). -/
structure SubmitInstructionResultRequest where
  agentId : String
  instructionId : String
  result : Option InstructionResult
deriving DecidableEq, Repr

/-- `v1.SubmitInstructionResultResponse`. -/
structure SubmitInstructionResultResponse where
  success : Bool
  message : String
deriving DecidableEq, Repr

/-- Outcome of decoding the piggy-backed `result_data` JSON string of a poll
(`internal/service/agent.go`). `json.Unmarshal` itself is abstracted: a value
of this type is the parse outcome of the string. `malformed` is an envelope
that does not decode to an `InstructionResult`; `parsed` carries the decoded
`instruction_type` and, for its `data` field, the outcome of decoding it as
`HardwareData` (`none` when that inner decode fails). -/
inductive ResultData where
  | malformed
  | parsed (instructionType : Int) (hardwareData : Option (List MellanoxNIC))
deriving DecidableEq, Repr

/-- `v1.GetInstructionsRequest`: agent id, the piggy-backed last instruction
id, and the `result_data` string (`none` models the empty string, `some`
carries the decoded form of a non-empty string). -/
structure GetInstructionsRequest where
  agentId : String
  lastInstructionId : String
  resultData : Option ResultData
deriving DecidableEq, Repr

/-- `validateRegisterRequest` (`internal/service/agent.go`). -/
def validateRegisterRequest (req : RegisterAgentRequest) : Except String Unit :=
  if req.id = "" then
    .error "agent ID is required"
  else if req.clusterId = "" then
    .error "cluster ID is required"
  else
    .ok ()

/-- The field overwrite applied by `RegisterAgent` to an already existing
record (named here for proof convenience): identity fields from the request,
forced ACTIVE status, refreshed `last_seen`/`updated_at`; everything else —
`created_at`, `hardware_collected`, `network_interfaces` — kept. -/
def registerUpdated (req : RegisterAgentRequest) (existingAgent : Agent) (now : Int) : Agent :=
  { existingAgent with
    clusterId := req.clusterId
    hostname := req.hostname
    ipAddress := req.ipAddress
    version := req.version
    status := AGENT_STATUS_ACTIVE
    lastSeen := some now
    updatedAt := some now }

/-- The fresh record created by `RegisterAgent` for an unknown id; the Go
struct literal leaves `hardware_collected` and `network_interfaces` at their
zero values. -/
def registerCreated (req : RegisterAgentRequest) (now : Int) : Agent :=
  { id := req.id
    clusterId := req.clusterId
    hostname := req.hostname
    ipAddress := req.ipAddress
    version := req.version
    status := AGENT_STATUS_ACTIVE
    lastSeen := some now
    createdAt := some now
    updatedAt := some now
    hardwareCollected := false
    networkInterfaces := [] }

/-- `AgentService.RegisterAgent`: validate, check the cluster exists, then
upsert — update the existing record's identity fields and heartbeat, or create
a fresh record. Identical in both revisions of the service file. -/
def RegisterAgent (s : Store) (req : RegisterAgentRequest) (now : Int) :
    Store × Except GrpcError Agent :=
  match validateRegisterRequest req with
  | .error msg => (s, .error ⟨.invalidArgument, msg⟩)
  | .ok _ =>
    if s.clusterExists req.clusterId then
      match s.getAgent req.id with
      | some existingAgent =>
        match s.updateAgent (registerUpdated req existingAgent now) with
        | .error msg => (s, .error ⟨.internal, "failed to update agent: " ++ msg⟩)
        | .ok s2 => (s2, .ok (registerUpdated req existingAgent now))
      | none =>
        match s.createAgent (registerCreated req now) with
        | .error msg => (s, .error ⟨.internal, "failed to create agent: " ++ msg⟩)
        | .ok s2 => (s2, .ok (registerCreated req now))
    else
      (s, .error ⟨.notFound, "cluster " ++ req.clusterId ++ " not found"⟩)

/-- `AgentService.GetAgent`: pure read. -/
def GetAgent (s : Store) (req : GetAgentRequest) : Except GrpcError Agent :=
  if req.id = "" then
    .error ⟨.invalidArgument, "agent ID is required"⟩
  else
    match s.getAgent req.id with
    | none => .error ⟨.notFound, "agent not found: " ++ req.id⟩
    | some agent => .ok agent

/-- `AgentService.UnregisterAgent`: empty-id validation, then delete; any
delete failure is surfaced as NotFound. -/
def UnregisterAgent (s : Store) (req : UnregisterAgentRequest) :
    Store × Except GrpcError UnregisterAgentResponse :=
  if req.id = "" then
    (s, .error ⟨.invalidArgument, "agent ID is required"⟩)
  else
    match s.deleteAgent req.id with
    | .error _ => (s, .error ⟨.notFound, "agent not found: " ++ req.id⟩)
    | .ok s2 => (s2, .ok { success := true })

/-- `generateInstructions`: offer a fresh COLLECT_HARDWARE instruction while
`hardware_collected` is false, otherwise nothing. `newId` stands for the
freshly drawn `uuid.New().String()` and `now` for the `timestamppb.Now()`
taken when the instruction is built. -/
def generateInstructions (agent : Agent) (newId : String) (now : Int) : List Instruction :=
  if !agent.hardwareCollected then
    [{ id := newId
       type := INSTRUCTION_TYPE_COLLECT_HARDWARE
       payload := "\x7b\x7d"
       createdAt := now }]
  else
    []

/-- `processInstructionResult` of `internal/service/agent.go` (string
`resultData` revision): decode the envelope, then apply a hardware collection
wholesale; any other decoded type is logged and ignored. Error returns happen
before any field of the agent is written. -/
def processInstructionResultData (agent : Agent) (resultData : ResultData) :
    Except String Agent :=
  match resultData with
  | .malformed => .error "failed to parse instruction result"
  | .parsed instructionType hardwareData =>
    if instructionType = INSTRUCTION_TYPE_COLLECT_HARDWARE then
      match hardwareData with
      | none => .error "failed to parse hardware data"
      | some nics =>
        .ok { agent with networkInterfaces := nics, hardwareCollected := true }
    else
      .ok agent

/-- The piggy-backed result block of `GetInstructions` (named here for proof
convenience): when both `last_instruction_id` and `result_data` are non-empty
the result is processed, and a processing error is only logged, leaving the
record as read. -/
def pollProcessed (req : GetInstructionsRequest) (agent0 : Agent) : Agent :=
  match req.resultData with
  | some rd =>
    if req.lastInstructionId = "" then
      agent0
    else
      match processInstructionResultData agent0 rd with
      | .ok a => a
      | .error _ => agent0
  | none => agent0

/-- The heartbeat refresh of `GetInstructions`: `last_seen`, `updated_at` and
`status` are overwritten unconditionally. -/
def pollHeartbeat (agent1 : Agent) (now : Int) : Agent :=
  { agent1 with
    lastSeen := some now
    updatedAt := some now
    status := AGENT_STATUS_ACTIVE }

/-- `AgentService.GetInstructions` (`internal/service/agent.go`): the poll
entry point. A piggy-backed result is processed first and its failure only
logged; then the heartbeat refresh is applied unconditionally and persisted,
and the instruction set is derived from the refreshed record. -/
def GetInstructions (s : Store) (req : GetInstructionsRequest) (now : Int) (newId : String) :
    Store × Except GrpcError GetInstructionsResponse :=
  if req.agentId = "" then
    (s, .error ⟨.invalidArgument, "agent ID is required"⟩)
  else
    match s.getAgent req.agentId with
    | none => (s, .error ⟨.notFound, "agent not found: " ++ req.agentId⟩)
    | some agent0 =>
      let agent2 := pollHeartbeat (pollProcessed req agent0) now
      match s.updateAgent agent2 with
      | .error msg => (s, .error ⟨.internal, "failed to update agent heartbeat: " ++ msg⟩)
      | .ok s2 =>
        (s2, .ok { instructions := generateInstructions agent2 newId now
                   pollIntervalSeconds := 60
                   serverTime := now })

/-- `processInstructionResult` of the typed-protobuf service revision
(`src/unnamed/part_006`): dispatch on the instruction type, requiring the
matching oneof payload for COLLECT_HARDWARE and HEALTH_CHECK; the default
branch logs and leaves the record untouched. -/
def processInstructionResult (agent : Agent) (result : InstructionResult) :
    Except String Agent :=
  if result.instructionType = INSTRUCTION_TYPE_COLLECT_HARDWARE then
    match getHardwareCollection result with
    | none => .error "hardware collection result is missing"
    | some hwResult =>
      .ok { agent with
        networkInterfaces := hwResult.networkInterfaces
        hardwareCollected := true }
  else if result.instructionType = INSTRUCTION_TYPE_HEALTH_CHECK then
    match getHealthCheck result with
    | none => .error "health check result is missing"
    | some _ => .ok agent
  else
    .ok agent

/-- `AgentService.SubmitInstructionResult` (`src/unnamed/part_006`): field
validation, agent lookup, result processing (a processing failure becomes a
structured non-error response), then `updated_at` refresh and persist. -/
def SubmitInstructionResult (s : Store) (req : SubmitInstructionResultRequest) (now : Int) :
    Store × Except GrpcError SubmitInstructionResultResponse :=
  if req.agentId = "" then
    (s, .error ⟨.invalidArgument, "agent ID is required"⟩)
  else if req.instructionId = "" then
    (s, .error ⟨.invalidArgument, "instruction ID is required"⟩)
  else
    match req.result with
    | none => (s, .error ⟨.invalidArgument, "result is required"⟩)
    | some result =>
      match s.getAgent req.agentId with
      | none => (s, .error ⟨.notFound, "agent not found: " ++ req.agentId⟩)
      | some agent =>
        match processInstructionResult agent result with
        | .error msg =>
          (s, .ok { success := false, message := "Failed to process result: " ++ msg })
        | .ok agent1 =>
          let agent2 := { agent1 with updatedAt := some now }
          match s.updateAgent agent2 with
          | .error msg => (s, .error ⟨.internal, "failed to update agent: " ++ msg⟩)
          | .ok s2 => (s2, .ok { success := true, message := "Result processed successfully" })

/-- A concrete cluster record used by the witnesses. -/
def demoCluster : Cluster :=
  { id := "cluster-X", name := "Cluster X", description := "demo",
    createdAt := some 0, updatedAt := some 0 }

/-- A concrete ACTIVE agent with `last_seen = updated_at = 0`. -/
def demoAgent : Agent :=
  { id := "agent-1", clusterId := "cluster-X", hostname := "node1",
    ipAddress := "10.0.1.1", version := "1.0.0", status := AGENT_STATUS_ACTIVE,
    lastSeen := some 0, createdAt := some 0, updatedAt := some 0,
    hardwareCollected := false, networkInterfaces := [] }

/-- A store holding `demoCluster` and `demoAgent`. -/
def demoStore : Store := { clusters := [demoCluster], agents := [demoAgent] }

/-- The INACTIVE variant of `demoAgent`. -/
def demoAgentInactive : Agent := { demoAgent with status := AGENT_STATUS_INACTIVE }

/-- A store holding `demoCluster` and the INACTIVE agent. -/
def demoStoreInactive : Store :=
  { clusters := [demoCluster], agents := [demoAgentInactive] }

/-- A result submission carrying an unknown instruction type (neither
COLLECT_HARDWARE nor HEALTH_CHECK). -/
def demoUnknownResultRequest : SubmitInstructionResultRequest :=
  { agentId := "agent-1", instructionId := "instr-9",
    result := some { instructionType := 99, result := ResultOneof.unset } }

/-- Scenario fixture for the register/poll/submit/poll walkthrough: an empty
fleet alongside the demo cluster. -/
def scenarioStore0 : Store := { clusters := [demoCluster], agents := [] }

/-- Scenario step 1: register agent-1 at t = 10. -/
def scenarioRegister : Store × Except GrpcError Agent :=
  RegisterAgent scenarioStore0
    { id := "agent-1", clusterId := "cluster-X", hostname := "node1",
      ipAddress := "10.0.1.1", version := "1.0.0" } 10

/-- Scenario step 2: first plain poll at t = 20, drawing instruction id
instr-1. -/
def scenarioPoll1 : Store × Except GrpcError GetInstructionsResponse :=
  GetInstructions scenarioRegister.1
    { agentId := "agent-1", lastInstructionId := "", resultData := none } 20 "instr-1"

/-- Scenario step 3: submit a two-NIC hardware collection result at t = 30. -/
def scenarioSubmit : Store × Except GrpcError SubmitInstructionResultResponse :=
  SubmitInstructionResult scenarioPoll1.1
    { agentId := "agent-1", instructionId := "instr-1",
      result := some { instructionType := INSTRUCTION_TYPE_COLLECT_HARDWARE,
                       result := ResultOneof.hardwareCollection
                         { networkInterfaces := [{ deviceName := "mlx5_0" },
                                                 { deviceName := "mlx5_1" }] } } } 30

/-- Scenario step 4: second plain poll at t = 40, drawing instruction id
instr-2. -/
def scenarioPoll2 : Store × Except GrpcError GetInstructionsResponse :=
  GetInstructions scenarioSubmit.1
    { agentId := "agent-1", lastInstructionId := "", resultData := none } 40 "instr-2"

/-- A list `any` check on agent ids agrees with definedness of the `find?`
lookup. -/
theorem anyId_eq_isSome : ∀ (l : List Agent) (x : String),
    l.any (fun a => a.id == x) = (l.find? (fun a => a.id == x)).isSome
  | [], _ => rfl
  | h :: t, x => by
    cases hc : (h.id == x) with
    | true => simp [List.any_cons, List.find?_cons, hc]
    | false => simp [List.any_cons, List.find?_cons, hc, anyId_eq_isSome t x]

/-- A successful `getAgent` returns a record carrying the looked-up id. -/
theorem getAgent_id {s : Store} {x : String} {a : Agent}
    (h : s.getAgent x = some a) : a.id = x := by
  have hp := List.find?_some h
  exact eq_of_beq hp

/-- Replacing the entry keyed `b.id` makes the lookup of `b.id` return `b`,
provided the key was present. -/
theorem find?_map_upd_self : ∀ (l : List Agent) (b a : Agent),
    l.find? (fun c => c.id == b.id) = some a →
    (l.map (fun c => if c.id == b.id then b else c)).find? (fun c => c.id == b.id) = some b
  | [], b, a, h => by simp [List.find?] at h
  | h :: t, b, a, hf => by
    cases hc : (h.id == b.id) with
    | true =>
      rw [List.map_cons, if_pos hc]
      simp [List.find?_cons]
    | false =>
      rw [List.find?_cons_of_neg _ (by simp [hc])] at hf
      simp only [List.map_cons, hc, if_neg (by simp [hc] : ¬ (h.id == b.id) = true)]
      rw [List.find?_cons_of_neg _ (by simp [hc])]
      exact find?_map_upd_self t b a hf

/-- Replacing the entry keyed `b.id` leaves lookups of other keys unchanged. -/
theorem find?_map_upd_ne : ∀ (l : List Agent) (b : Agent) (x : String), b.id ≠ x →
    (l.map (fun c => if c.id == b.id then b else c)).find? (fun c => c.id == x)
      = l.find? (fun c => c.id == x)
  | [], _, _, _ => rfl
  | h :: t, b, x, hbx => by
    cases hc : (h.id == b.id) with
    | true =>
      have hhb : h.id = b.id := eq_of_beq hc
      have hhx : (h.id == x) = false := by
        rw [hhb]; exact beq_eq_false_iff_ne.mpr hbx
      have hbxb : (b.id == x) = false := beq_eq_false_iff_ne.mpr hbx
      simp only [List.map_cons, hc, if_pos rfl]
      rw [List.find?_cons_of_neg _ (by simp [hbxb]),
          List.find?_cons_of_neg _ (by simp [hhx])]
      exact find?_map_upd_ne t b x hbx
    | false =>
      simp only [List.map_cons, if_neg (by simp [hc] : ¬ (h.id == b.id) = true)]
      cases hx : (h.id == x) with
      | true => simp [List.find?_cons, hx]
      | false =>
        rw [List.find?_cons_of_neg _ (by simp [hx]),
            List.find?_cons_of_neg _ (by simp [hx])]
        exact find?_map_upd_ne t b x hbx

/-- The id column is untouched by an entry replacement. -/
theorem ids_map_upd (l : List Agent) (b : Agent) :
    (l.map (fun c => if c.id == b.id then b else c)).map Agent.id = l.map Agent.id := by
  rw [List.map_map]
  apply List.map_congr_left
  intro c _
  by_cases hc : c.id = b.id
  · simp [Function.comp, hc]
  · simp [Function.comp, beq_eq_false_iff_ne.mpr hc, hc]

/-- Membership of an entry with a different key survives a replacement. -/
theorem mem_map_upd {l : List Agent} {a : Agent} (b : Agent)
    (ha : a ∈ l) (hne : a.id ≠ b.id) :
    a ∈ l.map (fun c => if c.id == b.id then b else c) := by
  have : (fun c => if c.id == b.id then b else c) a = a := by
    simp [beq_eq_false_iff_ne.mpr hne]
  rw [← this]
  exact List.mem_map_of_mem _ ha

/-- In a list with pairwise distinct ids, looking up a member's id finds that
member. -/
theorem find?_of_mem_nodup : ∀ (l : List Agent) (a : Agent),
    a ∈ l → (l.map Agent.id).Nodup → l.find? (fun c => c.id == a.id) = some a
  | [], a, ha, _ => absurd ha (List.not_mem_nil a)
  | h :: t, a, ha, hnd => by
    rcases List.mem_cons.mp ha with rfl | hat
    · simp [List.find?_cons, beq_self_eq_true]
    · have hne : h.id ≠ a.id := by
        intro hcontra
        have : a.id ∈ t.map Agent.id := List.mem_map_of_mem _ hat
        rw [← hcontra] at this
        exact (List.nodup_cons.mp (by simpa using hnd)).1 this
      rw [List.find?_cons_of_neg _ (by simp [hne])]
      exact find?_of_mem_nodup t a hat (List.nodup_cons.mp (by simpa using hnd)).2

/-- Appending a fresh entry makes its key found, when it was absent before. -/
theorem find?_append_of_none {l : List Agent} {x : String} (b : Agent)
    (h : l.find? (fun c => c.id == x) = none) (hb : (b.id == x) = true) :
    (l ++ [b]).find? (fun c => c.id == x) = some b := by
  induction l with
  | nil => simp [List.find?_cons, hb]
  | cons c t ih =>
    cases hc : (c.id == x) with
    | true =>
      exact absurd h (by simp [List.find?_cons, hc])
    | false =>
      rw [List.find?_cons_of_neg _ (by simp [hc])] at h
      rw [List.cons_append, List.find?_cons_of_neg _ (by simp [hc])]
      exact ih h

/-- `UpdateAgent` on a present key succeeds, yields the entry-replaced store,
and the subsequent lookup of that key returns the new record. -/
theorem updateAgent_spec {s : Store} {a : Agent} (b : Agent)
    (h : s.getAgent b.id = some a) :
    s.updateAgent b
        = .ok { s with agents := s.agents.map (fun c => if c.id == b.id then b else c) } ∧
      (Store.getAgent
        { s with agents := s.agents.map (fun c => if c.id == b.id then b else c) } b.id)
        = some b := by
  constructor
  · unfold Store.updateAgent
    rw [anyId_eq_isSome, show s.agents.find? (fun c => c.id == b.id) = some a from h]
    rfl
  · unfold Store.getAgent at h ⊢
    exact find?_map_upd_self s.agents b a h

/-- Inversion for a successful `UpdateAgent`: the resulting store is the
entry-replaced one. -/
theorem updateAgent_ok_inv {s : Store} {b : Agent} {s2 : Store}
    (h : s.updateAgent b = .ok s2) :
    s2 = { s with agents := s.agents.map (fun c => if c.id == b.id then b else c) } := by
  unfold Store.updateAgent at h
  by_cases hany : s.agents.any (fun a => a.id == b.id) = true
  · rw [if_pos hany] at h
    exact (Except.ok.inj h).symm
  · rw [if_neg hany] at h
    cases h

/-- One sweep step never changes the id column of the store. -/
theorem checkAgentStep_ids (now : Int) (s : Store) (b : Agent) :
    (checkAgentStep now s b).agents.map Agent.id = s.agents.map Agent.id := by
  unfold checkAgentStep
  split
  · rfl
  · split
    · split
      · next s2 heq =>
        rw [updateAgent_ok_inv heq]
        exact ids_map_upd s.agents _
      · rfl
    · rfl

/-- One sweep step for agent `b` does not affect the lookup of a different
key. -/
theorem checkAgentStep_getAgent_ne (now : Int) (s : Store) (b : Agent) (x : String)
    (hne : b.id ≠ x) :
    (checkAgentStep now s b).getAgent x = s.getAgent x := by
  unfold checkAgentStep
  split
  · rfl
  · split
    · split
      · next s2 heq =>
        rw [updateAgent_ok_inv heq]
        unfold Store.getAgent
        exact find?_map_upd_ne s.agents _ x hne
      · rfl
    · rfl

/-- Membership of a differently-keyed record survives one sweep step. -/
theorem checkAgentStep_mem (now : Int) (s : Store) (b : Agent) {a : Agent}
    (ha : a ∈ s.agents) (hne : a.id ≠ b.id) :
    a ∈ (checkAgentStep now s b).agents := by
  unfold checkAgentStep
  split
  · exact ha
  · split
    · split
      · next s2 heq =>
        rw [updateAgent_ok_inv heq]
        exact mem_map_upd _ ha hne
      · exact ha
    · exact ha

/-- In a well-formed store, the sweep step for a listed member leaves exactly
`markInactive` of it under its key. -/
theorem checkAgentStep_getAgent_self (now : Int) (s : Store) (a : Agent)
    (ha : a ∈ s.agents) (hWF : s.WF) :
    (checkAgentStep now s a).getAgent a.id = some (markInactive now a) := by
  have hfind : s.getAgent a.id = some a := find?_of_mem_nodup s.agents a ha hWF
  unfold checkAgentStep markInactive
  split
  · exact hfind
  · next lastSeenTime hls =>
    split
    · have hspec := updateAgent_spec (s := s) (a := a)
        { a with status := AGENT_STATUS_INACTIVE } hfind
      split
      · next s2 heq =>
        rw [hspec.1] at heq
        rw [← Except.ok.inj heq]
        exact hspec.2
      · next e heq =>
        rw [hspec.1] at heq
        cases heq
    · exact hfind

/-- Folding the sweep step over agents with keys all different from `x` leaves
the lookup of `x` unchanged. -/
theorem foldl_checkAgentStep_getAgent_ne (now : Int) :
    ∀ (L : List Agent) (s : Store) (x : String), (∀ b ∈ L, b.id ≠ x) →
      (L.foldl (checkAgentStep now) s).getAgent x = s.getAgent x
  | [], _, _, _ => rfl
  | b :: t, s, x, hL => by
    rw [List.foldl_cons]
    rw [foldl_checkAgentStep_getAgent_ne now t (checkAgentStep now s b) x
        (fun c hc => hL c (List.mem_cons_of_mem b hc))]
    exact checkAgentStep_getAgent_ne now s b x (hL b (List.mem_cons_self b t))

/-- Folding the sweep step over a duplicate-free listing of agents ends with
`markInactive` of each listed member stored under its key. -/
theorem foldl_checkAgentStep_getAgent (now : Int) :
    ∀ (L : List Agent) (s : Store) (a : Agent),
      a ∈ L → a ∈ s.agents → s.WF → (L.map Agent.id).Nodup →
      (L.foldl (checkAgentStep now) s).getAgent a.id = some (markInactive now a)
  | [], _, a, haL, _, _, _ => absurd haL (List.not_mem_nil a)
  | b :: t, s, a, haL, ha, hWF, hLnd => by
    rw [List.foldl_cons]
    have hnd : (∀ x ∈ t, ¬ x.id = b.id) ∧ (t.map Agent.id).Nodup := by
      simpa using hLnd
    rcases List.mem_cons.mp haL with rfl | hat
    · rw [foldl_checkAgentStep_getAgent_ne now t (checkAgentStep now s a) a.id
        (fun c hc => hnd.1 c hc)]
      exact checkAgentStep_getAgent_self now s a ha hWF
    · have hne : a.id ≠ b.id := hnd.1 a hat
      have ha2 : a ∈ (checkAgentStep now s b).agents :=
        checkAgentStep_mem now s b ha hne
      have hWF2 : (checkAgentStep now s b).WF := by
        unfold Store.WF
        rw [checkAgentStep_ids]
        exact hWF
      exact foldl_checkAgentStep_getAgent now t (checkAgentStep now s b) a hat ha2 hWF2 hnd.2

/-- Listing with an empty cluster filter returns the whole agents map. -/
theorem listAgents_empty_filter (s : Store) : s.listAgents "" = s.agents := by
  unfold Store.listAgents
  induction s.agents with
  | nil => rfl
  | cons h t ih => simp [List.filter_cons]

/-- Per-agent effect of one full sweep on a well-formed store: every agent
record is replaced by its `markInactive` image (in particular, unchanged
unless it is ACTIVE, has a non-null `last_seen`, and is over threshold). -/
theorem checkAgentStates_getAgent (s : Store) (now : Int) (a : Agent)
    (ha : a ∈ s.agents) (hWF : s.WF) :
    (checkAgentStates s now).getAgent a.id = some (markInactive now a) := by
  unfold checkAgentStates
  rw [listAgents_empty_filter]
  exact foldl_checkAgentStep_getAgent now s.agents s a ha ha hWF hWF

/-- The piggy-backed result processing never changes the agent id. -/
theorem processInstructionResultData_id {a a2 : Agent} {rd : ResultData}
    (h : processInstructionResultData a rd = .ok a2) : a2.id = a.id := by
  unfold processInstructionResultData at h
  split at h
  · cases h
  · split at h
    · split at h
      · cases h
      · rw [← Except.ok.inj h]
    · rw [← Except.ok.inj h]

/-- The typed result processing never changes the agent id. -/
theorem processInstructionResult_id {a a2 : Agent} {r : InstructionResult}
    (h : processInstructionResult a r = .ok a2) : a2.id = a.id := by
  unfold processInstructionResult at h
  split at h
  · split at h
    · cases h
    · rw [← Except.ok.inj h]
  · split at h
    · split at h
      · cases h
      · rw [← Except.ok.inj h]
    · rw [← Except.ok.inj h]

/-- The piggy-back block of a poll never changes the agent id. -/
theorem pollProcessed_id (req : GetInstructionsRequest) (a : Agent) :
    (pollProcessed req a).id = a.id := by
  unfold pollProcessed
  split
  · split
    · rfl
    · split
      · next a2 hp => exact processInstructionResultData_id hp
      · rfl
  · rfl

/-- `CreateAgent` on a fresh non-empty key succeeds with the appended store,
under which the new key is found. -/
theorem createAgent_spec {s : Store} (b : Agent) (hid : ¬ b.id = "")
    (h : s.getAgent b.id = none) :
    s.createAgent b = .ok { s with agents := s.agents ++ [b] } ∧
      (Store.getAgent { s with agents := s.agents ++ [b] } b.id) = some b := by
  have hany : s.agents.any (fun a => a.id == b.id) = false := by
    rw [anyId_eq_isSome]
    unfold Store.getAgent at h
    rw [h]
    rfl
  constructor
  · unfold Store.createAgent
    rw [if_neg hid, if_neg (by rw [hany]; exact Bool.false_ne_true)]
  · unfold Store.getAgent at h ⊢
    exact find?_append_of_none b h (beq_self_eq_true b.id)

/-- A successful lookup makes `GetInstructions` succeed: the piggy-backed
block is applied, the heartbeat refresh is stored under the polled id, and
the response is derived from the refreshed record. -/
theorem GetInstructions_ok (s : Store) (req : GetInstructionsRequest) (now : Int)
    (newId : String) (a : Agent)
    (hne : ¬ req.agentId = "") (ha : s.getAgent req.agentId = some a) :
    ∃ s2, GetInstructions s req now newId
        = (s2, .ok { instructions := generateInstructions (pollHeartbeat (pollProcessed req a) now) newId now
                     pollIntervalSeconds := 60
                     serverTime := now }) ∧
      s2.getAgent req.agentId = some (pollHeartbeat (pollProcessed req a) now) := by
  have hid : (pollHeartbeat (pollProcessed req a) now).id = req.agentId := by
    show (pollProcessed req a).id = req.agentId
    rw [pollProcessed_id req a]
    exact getAgent_id ha
  have hb : s.getAgent (pollHeartbeat (pollProcessed req a) now).id = some a := by
    rw [hid]; exact ha
  obtain ⟨hupd, hget⟩ := updateAgent_spec (pollHeartbeat (pollProcessed req a) now) hb
  refine ⟨{ s with agents := s.agents.map (fun c =>
      if c.id == (pollHeartbeat (pollProcessed req a) now).id then
        pollHeartbeat (pollProcessed req a) now
      else c) }, ?_, ?_⟩
  · unfold GetInstructions
    rw [if_neg hne, ha]
    dsimp only
    rw [hupd]
  · rw [← hid]
    exact hget


/-- C1: one run of the liveness sweep sets an ACTIVE agent with a non-null
`last_seen` older than 180 seconds to INACTIVE and persists it, and leaves
unchanged an ACTIVE agent within threshold, an agent with null `last_seen`,
and an agent already INACTIVE (with any `last_seen`). -/
theorem c1_liveness_sweep (s : Store) (now : Int) (a : Agent)
    (hWF : s.WF) (ha : a ∈ s.agents) :
    (∀ ls, a.lastSeen = some ls → a.status = AGENT_STATUS_ACTIVE →
        now - ls > inactiveThreshold →
        (checkAgentStates s now).getAgent a.id
          = some { a with status := AGENT_STATUS_INACTIVE }) ∧
    (∀ ls, a.lastSeen = some ls → a.status = AGENT_STATUS_ACTIVE →
        now - ls ≤ inactiveThreshold →
        (checkAgentStates s now).getAgent a.id = some a) ∧
    (a.lastSeen = none → (checkAgentStates s now).getAgent a.id = some a) ∧
    (a.status = AGENT_STATUS_INACTIVE →
        (checkAgentStates s now).getAgent a.id = some a) := by
  have hmain := checkAgentStates_getAgent s now a ha hWF
  refine ⟨?_, ?_, ?_, ?_⟩
  · intro ls hls hact hold
    rw [hmain]
    unfold markInactive
    rw [hls]
    dsimp only
    rw [if_pos ⟨hold, hact⟩]
  · intro ls hls hact hle
    rw [hmain]
    unfold markInactive
    rw [hls]
    dsimp only
    rw [if_neg (fun hcon => absurd hcon.1 (not_lt.mpr hle))]
  · intro hnone
    rw [hmain]
    unfold markInactive
    rw [hnone]
  · intro hstat
    rw [hmain]
    unfold markInactive
    cases hls : a.lastSeen with
    | none => rfl
    | some ls =>
      dsimp only
      have hne : ¬ (now - ls > inactiveThreshold ∧ a.status = AGENT_STATUS_ACTIVE) := by
        intro hcon
        rw [hstat] at hcon
        exact absurd hcon.2 (by decide)
      rw [if_neg hne]

/-- Witness for C1 at concrete inputs: a sweep at t = 181s demotes the demo
agent last seen at t = 0, and a sweep at t = 179s leaves it ACTIVE. -/
theorem c1_liveness_sweep_witness :
    (checkAgentStates demoStore (181 * timeSecond)).getAgent "agent-1"
        = some { demoAgent with status := AGENT_STATUS_INACTIVE } ∧
    (checkAgentStates demoStore (179 * timeSecond)).getAgent "agent-1"
        = some demoAgent := by
  constructor
  · exact (c1_liveness_sweep demoStore (181 * timeSecond) demoAgent (by decide)
      (by decide)).1 0 rfl rfl (by decide)
  · exact (c1_liveness_sweep demoStore (179 * timeSecond) demoAgent (by decide)
      (by decide)).2.1 0 rfl rfl (by decide)

/-- C2: a successful poll of an existing agent, whatever its prior status,
stores it as ACTIVE with `last_seen` and `updated_at` set to the poll time. -/
theorem c2_poll_reactivates (s : Store) (req : GetInstructionsRequest) (now : Int)
    (newId : String) (a : Agent)
    (hne : ¬ req.agentId = "") (ha : s.getAgent req.agentId = some a) :
    ∃ s2 resp, GetInstructions s req now newId = (s2, .ok resp) ∧
      ∃ a2, s2.getAgent req.agentId = some a2 ∧
        a2.status = AGENT_STATUS_ACTIVE ∧ a2.lastSeen = some now ∧
        a2.updatedAt = some now := by
  obtain ⟨s2, heq, hget⟩ := GetInstructions_ok s req now newId a hne ha
  exact ⟨s2, _, heq, pollHeartbeat (pollProcessed req a) now, hget, rfl, rfl, rfl⟩

/-- Witness for C2: polling the demo store whose only agent is INACTIVE ends
with that agent ACTIVE and freshly stamped. -/
theorem c2_poll_reactivates_witness :
    ∃ s2 resp,
      GetInstructions demoStoreInactive ⟨"agent-1", "", none⟩ 500 "i-1"
        = (s2, .ok resp) ∧
      ∃ a2, s2.getAgent "agent-1" = some a2 ∧
        a2.status = AGENT_STATUS_ACTIVE ∧ a2.lastSeen = some 500 ∧
        a2.updatedAt = some 500 :=
  c2_poll_reactivates demoStoreInactive ⟨"agent-1", "", none⟩ 500 "i-1"
    demoAgentInactive (by decide) rfl

/-- C7: a poll carrying a piggy-backed result that fails to process still
succeeds and still stores the heartbeat refresh (status ACTIVE, `last_seen`
and `updated_at` set to now) for the otherwise-unchanged record. -/
theorem c7_poll_survives_bad_result (s : Store) (req : GetInstructionsRequest)
    (now : Int) (newId : String) (a : Agent) (rd : ResultData) (msg : String)
    (hne : ¬ req.agentId = "") (ha : s.getAgent req.agentId = some a)
    (hlast : ¬ req.lastInstructionId = "") (hrd : req.resultData = some rd)
    (hproc : processInstructionResultData a rd = .error msg) :
    ∃ s2 resp, GetInstructions s req now newId = (s2, .ok resp) ∧
      s2.getAgent req.agentId
        = some { a with
            lastSeen := some now
            updatedAt := some now
            status := AGENT_STATUS_ACTIVE } := by
  have hpp : pollProcessed req a = a := by
    unfold pollProcessed
    rw [hrd]
    dsimp only
    rw [if_neg hlast, hproc]
  obtain ⟨s2, heq, hget⟩ := GetInstructions_ok s req now newId a hne ha
  rw [hpp] at heq hget
  exact ⟨s2, _, heq, hget⟩

/-- Witness for C7: a poll with a malformed piggy-backed result still refreshes
the demo agent. -/
theorem c7_poll_survives_bad_result_witness :
    ∃ s2 resp,
      GetInstructions demoStore ⟨"agent-1", "instr-0", some ResultData.malformed⟩
          600 "i-2" = (s2, .ok resp) ∧
      s2.getAgent "agent-1"
        = some { demoAgent with
            lastSeen := some 600
            updatedAt := some 600
            status := AGENT_STATUS_ACTIVE } :=
  c7_poll_survives_bad_result demoStore ⟨"agent-1", "instr-0", some ResultData.malformed⟩
    600 "i-2" demoAgent ResultData.malformed "failed to parse instruction result"
    (by decide) rfl (by decide) rfl rfl

/-- Re-registration success path: with valid fields, an existing cluster and
an existing agent, `RegisterAgent` stores and returns the overwritten record. -/
theorem RegisterAgent_update_ok (s : Store) (req : RegisterAgentRequest) (now : Int)
    (ex : Agent) (hid : ¬ req.id = "") (hcl : ¬ req.clusterId = "")
    (hex : s.clusterExists req.clusterId = true) (ha : s.getAgent req.id = some ex) :
    ∃ s2, RegisterAgent s req now = (s2, .ok (registerUpdated req ex now)) ∧
      s2.getAgent req.id = some (registerUpdated req ex now) := by
  have hbid : (registerUpdated req ex now).id = req.id := by
    show ex.id = req.id
    exact getAgent_id ha
  have hb : s.getAgent (registerUpdated req ex now).id = some ex := by
    rw [hbid]; exact ha
  obtain ⟨hupd, hget⟩ := updateAgent_spec (registerUpdated req ex now) hb
  refine ⟨{ s with agents := s.agents.map (fun c =>
      if c.id == (registerUpdated req ex now).id then registerUpdated req ex now
      else c) }, ?_, ?_⟩
  · unfold RegisterAgent validateRegisterRequest
    rw [if_neg hid, if_neg hcl]
    dsimp only
    rw [if_pos hex, ha]
    dsimp only
    rw [hupd]
  · rw [← hbid]
    exact hget

/-- First-registration success path: with valid fields, an existing cluster
and a fresh agent id, `RegisterAgent` stores and returns the new record. -/
theorem RegisterAgent_create_ok (s : Store) (req : RegisterAgentRequest) (now : Int)
    (hid : ¬ req.id = "") (hcl : ¬ req.clusterId = "")
    (hex : s.clusterExists req.clusterId = true) (hnone : s.getAgent req.id = none) :
    ∃ s2, RegisterAgent s req now = (s2, .ok (registerCreated req now)) ∧
      s2.getAgent req.id = some (registerCreated req now) := by
  have hbid : (registerCreated req now).id = req.id := rfl
  have hb : s.getAgent (registerCreated req now).id = none := by
    rw [hbid]; exact hnone
  obtain ⟨hcre, hget⟩ := createAgent_spec (registerCreated req now)
    (by rw [hbid]; exact hid) hb
  refine ⟨{ s with agents := s.agents ++ [registerCreated req now] }, ?_, ?_⟩
  · unfold RegisterAgent validateRegisterRequest
    rw [if_neg hid, if_neg hcl]
    dsimp only
    rw [if_pos hex, hnone]
    dsimp only
    rw [hcre]
  · rw [← hbid]
    exact hget

/-- Result-submission success path: with valid fields, an existing agent and
a result whose processing succeeds, `SubmitInstructionResult` stores the
processed record with a refreshed `updated_at` and reports success. -/
theorem SubmitInstructionResult_ok (s : Store) (req : SubmitInstructionResultRequest)
    (now : Int) (r : InstructionResult) (a a1 : Agent)
    (hne1 : ¬ req.agentId = "") (hne2 : ¬ req.instructionId = "")
    (hres : req.result = some r) (ha : s.getAgent req.agentId = some a)
    (hproc : processInstructionResult a r = .ok a1) :
    ∃ s2, SubmitInstructionResult s req now
        = (s2, .ok { success := true, message := "Result processed successfully" }) ∧
      s2.getAgent req.agentId = some { a1 with updatedAt := some now } := by
  have hbid : ({ a1 with updatedAt := some now } : Agent).id = req.agentId := by
    show a1.id = req.agentId
    rw [processInstructionResult_id hproc]
    exact getAgent_id ha
  have hb : s.getAgent ({ a1 with updatedAt := some now } : Agent).id = some a := by
    rw [hbid]; exact ha
  obtain ⟨hupd, hget⟩ := updateAgent_spec ({ a1 with updatedAt := some now }) hb
  refine ⟨{ s with agents := s.agents.map (fun c =>
      if c.id == ({ a1 with updatedAt := some now } : Agent).id then
        { a1 with updatedAt := some now }
      else c) }, ?_, ?_⟩
  · unfold SubmitInstructionResult
    rw [if_neg hne1, if_neg hne2, hres]
    dsimp only
    rw [ha]
    dsimp only
    rw [hproc]
    dsimp only
    rw [hupd]
  · rw [← hbid]
    exact hget

/-- C5: re-registering an existing agent overwrites `cluster_id`, `hostname`,
`ip_address`, `version`, forces ACTIVE, refreshes `last_seen`/`updated_at`,
and preserves `created_at`, `hardware_collected` and `network_interfaces`. -/
theorem c5_reregistration_frame (s : Store) (req : RegisterAgentRequest) (now : Int)
    (ex : Agent) (hid : ¬ req.id = "") (hcl : ¬ req.clusterId = "")
    (hex : s.clusterExists req.clusterId = true) (ha : s.getAgent req.id = some ex) :
    ∃ s2 a2, RegisterAgent s req now = (s2, .ok a2) ∧
      s2.getAgent req.id = some a2 ∧
      a2.clusterId = req.clusterId ∧ a2.hostname = req.hostname ∧
      a2.ipAddress = req.ipAddress ∧ a2.version = req.version ∧
      a2.status = AGENT_STATUS_ACTIVE ∧ a2.lastSeen = some now ∧
      a2.updatedAt = some now ∧ a2.createdAt = ex.createdAt ∧
      a2.hardwareCollected = ex.hardwareCollected ∧
      a2.networkInterfaces = ex.networkInterfaces ∧ a2.id = ex.id := by
  obtain ⟨s2, heq, hget⟩ := RegisterAgent_update_ok s req now ex hid hcl hex ha
  exact ⟨s2, registerUpdated req ex now, heq, hget,
    rfl, rfl, rfl, rfl, rfl, rfl, rfl, rfl, rfl, rfl, rfl⟩

/-- Witness for C5: re-registering the demo agent with new metadata at t = 70
keeps its `created_at`, `hardware_collected` and `network_interfaces`. -/
theorem c5_reregistration_frame_witness :
    ∃ s2 a2,
      RegisterAgent demoStore
          { id := "agent-1", clusterId := "cluster-X", hostname := "node1b",
            ipAddress := "10.0.1.2", version := "1.0.1" } 70 = (s2, .ok a2) ∧
      s2.getAgent "agent-1" = some a2 ∧
      a2.clusterId = "cluster-X" ∧ a2.hostname = "node1b" ∧
      a2.ipAddress = "10.0.1.2" ∧ a2.version = "1.0.1" ∧
      a2.status = AGENT_STATUS_ACTIVE ∧ a2.lastSeen = some 70 ∧
      a2.updatedAt = some 70 ∧ a2.createdAt = demoAgent.createdAt ∧
      a2.hardwareCollected = demoAgent.hardwareCollected ∧
      a2.networkInterfaces = demoAgent.networkInterfaces ∧ a2.id = demoAgent.id :=
  c5_reregistration_frame demoStore
    { id := "agent-1", clusterId := "cluster-X", hostname := "node1b",
      ipAddress := "10.0.1.2", version := "1.0.1" } 70 demoAgent
    (by decide) (by decide) rfl rfl

/-- C6: `Register` fails InvalidInput on an empty id or cluster id, and fails
NotFound on an unknown cluster without writing, so a fresh agent id still
resolves to NotFound afterwards. -/
theorem c6_register_validation (s : Store) (req : RegisterAgentRequest) (now : Int) :
    (req.id = "" →
      RegisterAgent s req now
        = (s, .error ⟨.invalidArgument, "agent ID is required"⟩)) ∧
    (¬ req.id = "" → req.clusterId = "" →
      RegisterAgent s req now
        = (s, .error ⟨.invalidArgument, "cluster ID is required"⟩)) ∧
    (¬ req.id = "" → ¬ req.clusterId = "" →
      s.clusterExists req.clusterId = false →
      RegisterAgent s req now
          = (s, .error ⟨.notFound, "cluster " ++ req.clusterId ++ " not found"⟩) ∧
        (s.getAgent req.id = none →
          GetAgent (RegisterAgent s req now).1 { id := req.id }
            = .error ⟨.notFound, "agent not found: " ++ req.id⟩)) := by
  refine ⟨?_, ?_, ?_⟩
  · intro h1
    unfold RegisterAgent validateRegisterRequest
    rw [if_pos h1]
  · intro h1 h2
    unfold RegisterAgent validateRegisterRequest
    rw [if_neg h1, if_pos h2]
  · intro h1 h2 h3
    have hnf : RegisterAgent s req now
        = (s, .error ⟨.notFound, "cluster " ++ req.clusterId ++ " not found"⟩) := by
      unfold RegisterAgent validateRegisterRequest
      rw [if_neg h1, if_neg h2]
      dsimp only
      rw [if_neg (by rw [h3]; exact Bool.false_ne_true)]
    refine ⟨hnf, ?_⟩
    intro hnone
    rw [hnf]
    unfold GetAgent
    rw [if_neg h1, hnone]

/-- Witness for C6 at concrete requests against the demo store. -/
theorem c6_register_validation_witness :
    RegisterAgent demoStore
        { id := "", clusterId := "cluster-X", hostname := "", ipAddress := "",
          version := "" } 5
      = (demoStore, .error ⟨.invalidArgument, "agent ID is required"⟩) ∧
    RegisterAgent demoStore
        { id := "agent-9", clusterId := "", hostname := "", ipAddress := "",
          version := "" } 5
      = (demoStore, .error ⟨.invalidArgument, "cluster ID is required"⟩) ∧
    RegisterAgent demoStore
        { id := "agent-9", clusterId := "cluster-Z", hostname := "",
          ipAddress := "", version := "" } 5
      = (demoStore, .error ⟨.notFound, "cluster cluster-Z not found"⟩) ∧
    GetAgent (RegisterAgent demoStore
        { id := "agent-9", clusterId := "cluster-Z", hostname := "",
          ipAddress := "", version := "" } 5).1 { id := "agent-9" }
      = .error ⟨.notFound, "agent not found: agent-9"⟩ := by
  refine ⟨?_, ?_, ?_, ?_⟩
  · exact (c6_register_validation demoStore
      { id := "", clusterId := "cluster-X", hostname := "", ipAddress := "",
        version := "" } 5).1 rfl
  · exact (c6_register_validation demoStore
      { id := "agent-9", clusterId := "", hostname := "", ipAddress := "",
        version := "" } 5).2.1 (by decide) rfl
  · exact ((c6_register_validation demoStore
      { id := "agent-9", clusterId := "cluster-Z", hostname := "",
        ipAddress := "", version := "" } 5).2.2 (by decide) (by decide) rfl).1
  · exact ((c6_register_validation demoStore
      { id := "agent-9", clusterId := "cluster-Z", hostname := "",
        ipAddress := "", version := "" } 5).2.2 (by decide) (by decide) rfl).2 rfl

/-- C10: `Unregister` with an empty id fails InvalidInput with the fleet
untouched; with a non-empty absent id the delete is attempted and its failure
is surfaced as NotFound, also leaving the fleet untouched. -/
theorem c10_unregister_errors (s : Store) (req : UnregisterAgentRequest) :
    (req.id = "" →
      UnregisterAgent s req
        = (s, .error ⟨.invalidArgument, "agent ID is required"⟩)) ∧
    (¬ req.id = "" → s.getAgent req.id = none →
      UnregisterAgent s req
        = (s, .error ⟨.notFound, "agent not found: " ++ req.id⟩)) := by
  constructor
  · intro h1
    unfold UnregisterAgent
    rw [if_pos h1]
  · intro h1 hnone
    have hany : s.agents.any (fun a => a.id == req.id) = false := by
      rw [anyId_eq_isSome]
      unfold Store.getAgent at hnone
      rw [hnone]
      rfl
    unfold UnregisterAgent Store.deleteAgent
    rw [if_neg h1, if_neg (by rw [hany]; exact Bool.false_ne_true)]

/-- Witness for C10 against the demo store. -/
theorem c10_unregister_errors_witness :
    UnregisterAgent demoStore { id := "" }
      = (demoStore, .error ⟨.invalidArgument, "agent ID is required"⟩) ∧
    UnregisterAgent demoStore { id := "ghost" }
      = (demoStore, .error ⟨.notFound, "agent not found: ghost"⟩) := by
  constructor
  · exact (c10_unregister_errors demoStore { id := "" }).1 rfl
  · exact (c10_unregister_errors demoStore { id := "ghost" }).2 (by decide) rfl

/-- C4: submitting a COLLECT_HARDWARE result with a present hardware payload
replaces `network_interfaces` wholesale (empty list allowed), sets
`hardware_collected`, persists and reports success; a missing hardware payload
yields a structured failure response with no RPC error and no store change. -/
theorem c4_submit_hardware (s : Store) (req : SubmitInstructionResultRequest)
    (now : Int) (r : InstructionResult) (a : Agent)
    (hne1 : ¬ req.agentId = "") (hne2 : ¬ req.instructionId = "")
    (hres : req.result = some r) (ha : s.getAgent req.agentId = some a)
    (hty : r.instructionType = INSTRUCTION_TYPE_COLLECT_HARDWARE) :
    (∀ hw, getHardwareCollection r = some hw →
      ∃ s2, SubmitInstructionResult s req now
          = (s2, .ok { success := true, message := "Result processed successfully" }) ∧
        s2.getAgent req.agentId
          = some { a with
              networkInterfaces := hw.networkInterfaces
              hardwareCollected := true
              updatedAt := some now }) ∧
    (getHardwareCollection r = none →
      SubmitInstructionResult s req now
        = (s, .ok { success := false,
                    message := "Failed to process result: hardware collection result is missing" })) := by
  constructor
  · intro hw hhw
    have hproc : processInstructionResult a r
        = .ok { a with networkInterfaces := hw.networkInterfaces
                       hardwareCollected := true } := by
      unfold processInstructionResult
      rw [if_pos hty, hhw]
    obtain ⟨s2, heq, hget⟩ := SubmitInstructionResult_ok s req now r a
      { a with networkInterfaces := hw.networkInterfaces, hardwareCollected := true }
      hne1 hne2 hres ha hproc
    exact ⟨s2, heq, hget⟩
  · intro hnone
    have hproc : processInstructionResult a r
        = .error "hardware collection result is missing" := by
      unfold processInstructionResult
      rw [if_pos hty, hnone]
    unfold SubmitInstructionResult
    rw [if_neg hne1, if_neg hne2, hres]
    dsimp only
    rw [ha]
    dsimp only
    rw [hproc]
    rfl

/-- Witness for C4: a one-NIC payload is stored wholesale, and an absent
payload yields the structured failure with the store untouched. -/
theorem c4_submit_hardware_witness :
    (∃ s2, SubmitInstructionResult demoStore
        { agentId := "agent-1", instructionId := "instr-1",
          result := some { instructionType := INSTRUCTION_TYPE_COLLECT_HARDWARE,
                           result := ResultOneof.hardwareCollection
                             { networkInterfaces := [{ deviceName := "mlx5_0" }] } } } 50
        = (s2, .ok { success := true, message := "Result processed successfully" }) ∧
      s2.getAgent "agent-1"
        = some { demoAgent with
            networkInterfaces := [{ deviceName := "mlx5_0" }]
            hardwareCollected := true
            updatedAt := some 50 }) ∧
    SubmitInstructionResult demoStore
        { agentId := "agent-1", instructionId := "instr-1",
          result := some { instructionType := INSTRUCTION_TYPE_COLLECT_HARDWARE,
                           result := ResultOneof.unset } } 50
      = (demoStore, .ok { success := false,
                          message := "Failed to process result: hardware collection result is missing" }) := by
  constructor
  · exact (c4_submit_hardware demoStore
      { agentId := "agent-1", instructionId := "instr-1",
        result := some { instructionType := INSTRUCTION_TYPE_COLLECT_HARDWARE,
                         result := ResultOneof.hardwareCollection
                           { networkInterfaces := [{ deviceName := "mlx5_0" }] } } } 50
      { instructionType := INSTRUCTION_TYPE_COLLECT_HARDWARE,
        result := ResultOneof.hardwareCollection
          { networkInterfaces := [{ deviceName := "mlx5_0" }] } }
      demoAgent (by decide) (by decide) rfl rfl rfl).1
      { networkInterfaces := [{ deviceName := "mlx5_0" }] } rfl
  · exact (c4_submit_hardware demoStore
      { agentId := "agent-1", instructionId := "instr-1",
        result := some { instructionType := INSTRUCTION_TYPE_COLLECT_HARDWARE,
                         result := ResultOneof.unset } } 50
      { instructionType := INSTRUCTION_TYPE_COLLECT_HARDWARE,
        result := ResultOneof.unset }
      demoAgent (by decide) (by decide) rfl rfl rfl).2 rfl

/-- C9 counterexample: submitting an unknown instruction type (99) reports
success, yet the stored agent record does change — its `updated_at` is
refreshed to the submission time, so the store differs from before the call. -/
theorem c9_unknown_type_counterexample :
    (SubmitInstructionResult demoStore demoUnknownResultRequest 77).2
        = .ok { success := true, message := "Result processed successfully" } ∧
    (SubmitInstructionResult demoStore demoUnknownResultRequest 77).1.getAgent "agent-1"
        = some { demoAgent with updatedAt := some 77 } ∧
    ¬ (SubmitInstructionResult demoStore demoUnknownResultRequest 77).1.getAgent "agent-1"
        = demoStore.getAgent "agent-1" := by
  refine ⟨rfl, rfl, by decide⟩

/-- C9 (amended): submitting a result with an unknown instruction type never
hard-fails — it reports success and leaves the stored agent unchanged except
for `updated_at`, which is refreshed to the submission time. -/
theorem c9_unknown_type_amended (s : Store) (req : SubmitInstructionResultRequest)
    (now : Int) (r : InstructionResult) (a : Agent)
    (hne1 : ¬ req.agentId = "") (hne2 : ¬ req.instructionId = "")
    (hres : req.result = some r) (ha : s.getAgent req.agentId = some a)
    (ht1 : ¬ r.instructionType = INSTRUCTION_TYPE_COLLECT_HARDWARE)
    (ht2 : ¬ r.instructionType = INSTRUCTION_TYPE_HEALTH_CHECK) :
    ∃ s2, SubmitInstructionResult s req now
        = (s2, .ok { success := true, message := "Result processed successfully" }) ∧
      s2.getAgent req.agentId = some { a with updatedAt := some now } := by
  have hproc : processInstructionResult a r = .ok a := by
    unfold processInstructionResult
    rw [if_neg ht1, if_neg ht2]
  exact SubmitInstructionResult_ok s req now r a a hne1 hne2 hres ha hproc

/-- Witness for the amended C9 against the demo store. -/
theorem c9_unknown_type_amended_witness :
    ∃ s2, SubmitInstructionResult demoStore demoUnknownResultRequest 77
        = (s2, .ok { success := true, message := "Result processed successfully" }) ∧
      s2.getAgent "agent-1" = some { demoAgent with updatedAt := some 77 } :=
  c9_unknown_type_amended demoStore demoUnknownResultRequest 77
    { instructionType := 99, result := ResultOneof.unset } demoAgent
    (by decide) (by decide) rfl rfl (by decide) (by decide)

/-- C3: a plain poll of an existing agent returns exactly one fresh
COLLECT_HARDWARE instruction carrying the newly drawn id while
`hardware_collected` is false, and no instructions once it is true; the
register → poll → submit-two-NICs → poll scenario returns one instruction
then zero. -/
theorem c3_instruction_policy (s : Store) (req : GetInstructionsRequest)
    (now : Int) (newId : String) (a : Agent)
    (hne : ¬ req.agentId = "") (ha : s.getAgent req.agentId = some a)
    (hnopig : req.resultData = none) :
    (a.hardwareCollected = false →
      ∃ s2, GetInstructions s req now newId
        = (s2, .ok { instructions := [{ id := newId
                                        type := INSTRUCTION_TYPE_COLLECT_HARDWARE
                                        payload := "\x7b\x7d"
                                        createdAt := now }]
                     pollIntervalSeconds := 60
                     serverTime := now })) ∧
    (a.hardwareCollected = true →
      ∃ s2, GetInstructions s req now newId
        = (s2, .ok { instructions := []
                     pollIntervalSeconds := 60
                     serverTime := now })) ∧
    (scenarioPoll1.2
        = .ok { instructions := [{ id := "instr-1"
                                   type := INSTRUCTION_TYPE_COLLECT_HARDWARE
                                   payload := "\x7b\x7d"
                                   createdAt := 20 }]
                pollIntervalSeconds := 60
                serverTime := 20 } ∧
      scenarioSubmit.2
        = .ok { success := true, message := "Result processed successfully" } ∧
      scenarioPoll2.2
        = .ok { instructions := [], pollIntervalSeconds := 60, serverTime := 40 }) := by
  have hpp : pollProcessed req a = a := by
    unfold pollProcessed
    rw [hnopig]
  refine ⟨?_, ?_, rfl, rfl, rfl⟩
  · intro hw
    obtain ⟨s2, heq, hget⟩ := GetInstructions_ok s req now newId a hne ha
    rw [hpp] at heq
    refine ⟨s2, ?_⟩
    rw [heq]
    have hgen : generateInstructions (pollHeartbeat a now) newId now
        = [{ id := newId
             type := INSTRUCTION_TYPE_COLLECT_HARDWARE
             payload := "\x7b\x7d"
             createdAt := now }] := by
      unfold generateInstructions pollHeartbeat
      simp [hw]
    rw [hgen]
  · intro hw
    obtain ⟨s2, heq, hget⟩ := GetInstructions_ok s req now newId a hne ha
    rw [hpp] at heq
    refine ⟨s2, ?_⟩
    rw [heq]
    have hgen : generateInstructions (pollHeartbeat a now) newId now = [] := by
      unfold generateInstructions pollHeartbeat
      simp [hw]
    rw [hgen]

/-- Witness for C3: the demo agent has `hardware_collected = false`, so a
plain poll offers exactly one fresh COLLECT_HARDWARE instruction. -/
theorem c3_instruction_policy_witness :
    ∃ s2, GetInstructions demoStore
        { agentId := "agent-1", lastInstructionId := "", resultData := none }
        20 "w-1"
      = (s2, .ok { instructions := [{ id := "w-1"
                                      type := INSTRUCTION_TYPE_COLLECT_HARDWARE
                                      payload := "\x7b\x7d"
                                      createdAt := 20 }]
                   pollIntervalSeconds := 60
                   serverTime := 20 }) :=
  (c3_instruction_policy demoStore
    { agentId := "agent-1", lastInstructionId := "", resultData := none }
    20 "w-1" demoAgent (by decide) rfl rfl).1 rfl

/-- C8 counterexample: at t = 200s the sweep demotes the demo agent (a real
mutation of the stored record: it was ACTIVE), yet the stored `updated_at`
still reads 0, not the sweep time. -/
theorem c8_updated_at_counterexample :
    demoAgent.status = AGENT_STATUS_ACTIVE ∧
    ((checkAgentStates demoStore (200 * timeSecond)).getAgent "agent-1").map Agent.status
        = some AGENT_STATUS_INACTIVE ∧
    ((checkAgentStates demoStore (200 * timeSecond)).getAgent "agent-1").map Agent.updatedAt
        = some (some 0) ∧
    ¬ (some 0 : Option Int) = some (200 * timeSecond) := by
  refine ⟨rfl, rfl, rfl, by decide⟩

/-- The sweep's pointwise record change never touches `updated_at`. -/
theorem markInactive_updatedAt (now : Int) (a : Agent) :
    (markInactive now a).updatedAt = a.updatedAt := by
  unfold markInactive
  split
  · rfl
  · split
    · rfl
    · rfl

/-- C8 (amended): Register (both create and update paths), Poll and
SubmitResult stamp the stored record's `updated_at` with the mutation time;
the Liveness Monitor's ACTIVE→INACTIVE transition, by contrast, persists the
status change while leaving `updated_at` exactly as it was. -/
theorem c8_updated_at_amended (s : Store) (now : Int) :
    (∀ (req : RegisterAgentRequest), ¬ req.id = "" → ¬ req.clusterId = "" →
      s.clusterExists req.clusterId = true → s.getAgent req.id = none →
      ((RegisterAgent s req now).1.getAgent req.id).map Agent.updatedAt
        = some (some now)) ∧
    (∀ (req : RegisterAgentRequest) (ex : Agent), ¬ req.id = "" →
      ¬ req.clusterId = "" → s.clusterExists req.clusterId = true →
      s.getAgent req.id = some ex →
      ((RegisterAgent s req now).1.getAgent req.id).map Agent.updatedAt
        = some (some now)) ∧
    (∀ (req : GetInstructionsRequest) (newId : String) (a : Agent),
      ¬ req.agentId = "" → s.getAgent req.agentId = some a →
      ((GetInstructions s req now newId).1.getAgent req.agentId).map Agent.updatedAt
        = some (some now)) ∧
    (∀ (req : SubmitInstructionResultRequest) (r : InstructionResult) (a a1 : Agent),
      ¬ req.agentId = "" → ¬ req.instructionId = "" → req.result = some r →
      s.getAgent req.agentId = some a → processInstructionResult a r = .ok a1 →
      ((SubmitInstructionResult s req now).1.getAgent req.agentId).map Agent.updatedAt
        = some (some now)) ∧
    (∀ a ∈ s.agents, s.WF →
      ((checkAgentStates s now).getAgent a.id).map Agent.updatedAt
        = some a.updatedAt) := by
  refine ⟨?_, ?_, ?_, ?_, ?_⟩
  · intro req hid hcl hex hnone
    obtain ⟨s2, heq, hget⟩ := RegisterAgent_create_ok s req now hid hcl hex hnone
    rw [heq]
    dsimp only
    rw [hget]
    rfl
  · intro req ex hid hcl hex ha
    obtain ⟨s2, heq, hget⟩ := RegisterAgent_update_ok s req now ex hid hcl hex ha
    rw [heq]
    dsimp only
    rw [hget]
    rfl
  · intro req newId a hne ha
    obtain ⟨s2, heq, hget⟩ := GetInstructions_ok s req now newId a hne ha
    rw [heq]
    dsimp only
    rw [hget]
    rfl
  · intro req r a a1 hne1 hne2 hres ha hproc
    obtain ⟨s2, heq, hget⟩ := SubmitInstructionResult_ok s req now r a a1
      hne1 hne2 hres ha hproc
    rw [heq]
    dsimp only
    rw [hget]
    rfl
  · intro a ha hWF
    rw [checkAgentStates_getAgent s now a ha hWF]
    show some (markInactive now a).updatedAt = some a.updatedAt
    rw [markInactive_updatedAt]

/-- Witness for the amended C8: a poll at t = 55 stamps `updated_at = 55`,
while a sweep at t = 200s that demotes the demo agent leaves its
`updated_at` at 0. -/
theorem c8_updated_at_amended_witness :
    ((GetInstructions demoStore
        { agentId := "agent-1", lastInstructionId := "", resultData := none }
        55 "w-8").1.getAgent "agent-1").map Agent.updatedAt = some (some 55) ∧
    ((checkAgentStates demoStore (200 * timeSecond)).getAgent "agent-1").map Agent.updatedAt
        = some (some 0) := by
  constructor
  · exact (c8_updated_at_amended demoStore 55).2.2.1
      { agentId := "agent-1", lastInstructionId := "", resultData := none }
      "w-8" demoAgent (by decide) rfl
  · exact (c8_updated_at_amended demoStore (200 * timeSecond)).2.2.2.2
      demoAgent (by decide) (by decide)
